import Mathlib

/-!
Shallow embedding of the `ntp` package (SNTP client core): the wire codec,
the query engine (`getTime`, `QueryWithOptions`, `Query`, `TimeV`, `Time`)
and the default UDP transport handler from `defaultHandler.go`.

Representation choices: byte buffers are `List Nat` with entries below 256;
NTP 64-bit fixed-point timestamps (`ntpTime`) are `Nat` values below `2^64`;
calendar times are nanoseconds since the NTP epoch (`Nat`); durations are
nanoseconds (`Int`).  Effects (the secure random source, the system clock,
socket operations) are passed as explicit parameters.  The wire codec,
`msg`/`Response` records, `toNtpTime`, `parseTime` and `Response.Validate`
are not part of the provided source file and are modelled from the spec.
-/

namespace Ntp

/-- Errors observable from the embedded code: `msg s` models `errors.New s`;
`eof` and `unexpectedEOF` model the errors `binary.Read` returns on an
empty, respectively short, input buffer. -/
inductive GoError where
  | msg (s : String)
  | eof
  | unexpectedEOF
  deriving DecidableEq, Repr

/-- Modelled from the spec: the default protocol version is 4. -/
def defaultNtpVersion : Int := 4

/-- Modelled from the spec: Mode enumeration value `Client = 3`. -/
def client : Nat := 3

/-- Modelled from the spec: Mode enumeration value `Server = 4`. -/
def server : Nat := 4

/-- Modelled from the spec: Leap enumeration value `NotInSync = 3`. -/
def LeapNotInSync : Nat := 3

/-- Modelled from the spec: number of nanoseconds in a second. -/
def nanoPerSec : Nat := 1000000000

/-- Modelled from the spec: set the low 3 mode bits of the packed header
byte without disturbing the leap and version sub-fields. -/
def setMode (b md : Nat) : Nat := (b &&& 0xf8) ||| (md &&& 0x07)

/-- Modelled from the spec: set the 3 version bits (bits 3..5) of the packed
header byte without disturbing the leap and mode sub-fields. -/
def setVersion (b v : Nat) : Nat := (b &&& 0xc7) ||| ((v &&& 0x07) <<< 3)

/-- Modelled from the spec: set the top 2 leap-indicator bits of the packed
header byte without disturbing the version and mode sub-fields. -/
def setLeap (b li : Nat) : Nat := (b &&& 0x3f) ||| ((li &&& 0x03) <<< 6)

/-- Modelled from the spec: read the low 3 mode bits of the header byte. -/
def getMode (b : Nat) : Nat := b &&& 0x07

/-- Modelled from the spec: read the top 2 leap bits of the header byte. -/
def getLeap (b : Nat) : Nat := (b >>> 6) &&& 0x03

/-- Modelled from the spec: `toNtpTime` converts a calendar time (here:
nanoseconds since the NTP epoch) to a 64-bit NTP timestamp, seconds field
truncated to 32 bits, fraction field the remainder scaled to 32 bits. -/
def toNtpTime (t : Nat) : Nat :=
  ((t / nanoPerSec) % 2 ^ 32) * 2 ^ 32 + (t % nanoPerSec) * 2 ^ 32 / nanoPerSec

/-- Modelled from the spec: the inverse conversion, from a 64-bit NTP
timestamp to nanoseconds since the NTP epoch (seconds plus fraction/2^32). -/
def ntpToNs (t : Nat) : Int :=
  (((t / 2 ^ 32) * nanoPerSec + (t % 2 ^ 32) * nanoPerSec / 2 ^ 32 : Nat) : Int)

/-- Modelled from the spec: the fixed 48-byte NTP packet (`msg` in the Go
source), with multi-byte fields kept as `Nat` values of the field's width. -/
structure Msg where
  LiVnMode : Nat
  Stratum : Nat
  Poll : Nat
  Precision : Nat
  RootDelay : Nat
  RootDispersion : Nat
  ReferenceID : Nat
  ReferenceTime : Nat
  OriginTime : Nat
  ReceiveTime : Nat
  TransmitTime : Nat
  deriving DecidableEq, Repr

/-- The all-zero packet, i.e. Go's `new(msg)`. -/
def zeroMsg : Msg := ⟨0, 0, 0, 0, 0, 0, 0, 0, 0, 0, 0⟩

/-- Big-endian encoding of a value into `w` bytes (most significant first). -/
def beBytes : Nat → Nat → List Nat
  | 0, _ => []
  | w + 1, v => beBytes w (v >>> 8) ++ [v &&& 0xff]

/-- Big-endian value of a byte list (entries reduced mod 256). -/
def beVal (l : List Nat) : Nat := l.foldl (fun a b => a * 256 + b % 256) 0

/-- Modelled from the spec: `binary.Write` of a `msg`, i.e. the 48-byte
big-endian serialization in the field order of the packet table. -/
def encode (m : Msg) : List Nat :=
  beBytes 1 m.LiVnMode ++ beBytes 1 m.Stratum ++ beBytes 1 m.Poll ++
  beBytes 1 m.Precision ++ beBytes 4 m.RootDelay ++ beBytes 4 m.RootDispersion ++
  beBytes 4 m.ReferenceID ++ beBytes 8 m.ReferenceTime ++ beBytes 8 m.OriginTime ++
  beBytes 8 m.ReceiveTime ++ beBytes 8 m.TransmitTime

/-- Modelled from the spec: `binary.Read` of a `msg` from a byte buffer.
It consumes the first 48 bytes; with no bytes available it fails like
`io.EOF`, with 1..47 bytes like `io.ErrUnexpectedEOF`; extra bytes beyond
the 48 consumed ones are ignored. -/
def decode (bs : List Nat) : Except GoError Msg :=
  if bs.length < 48 then
    .error (if bs.length = 0 then .eof else .unexpectedEOF)
  else
    .ok
      { LiVnMode := bs.getD 0 0 % 256
        Stratum := bs.getD 1 0 % 256
        Poll := bs.getD 2 0 % 256
        Precision := bs.getD 3 0 % 256
        RootDelay := beVal ((bs.drop 4).take 4)
        RootDispersion := beVal ((bs.drop 8).take 4)
        ReferenceID := beVal ((bs.drop 12).take 4)
        ReferenceTime := beVal ((bs.drop 16).take 8)
        OriginTime := beVal ((bs.drop 24).take 8)
        ReceiveTime := beVal ((bs.drop 32).take 8)
        TransmitTime := beVal ((bs.drop 40).take 8) }

/-- Query options; the only recognized option is the protocol version
(0 meaning "use the default"). -/
structure QueryOptions where
  Version : Int := 0
  deriving DecidableEq, Repr

/-- The effective protocol version: lines 150-152 of the source replace a
zero `opt.Version` by `defaultNtpVersion`. -/
def effVersion (v : Int) : Int := if v = 0 then defaultNtpVersion else v

/-- The request packet built by `getTime` (source lines 160-179): an
all-zero `msg` with Mode=Client, the requested Version and Leap=NotInSync
packed into the header byte, and TransmitTime either the random 64-bit
value when `crypto/rand` succeeded (`randVal = some r`, where `r` is
`binary.BigEndian.Uint64` of the 8 random bytes) or `toNtpTime` of the
local send instant when it failed (`randVal = none`). -/
def requestMsg (version : Nat) (randVal : Option Nat) (xmitTime : Nat) : Msg :=
  let liVnMode := setLeap (setVersion (setMode 0 client) version) LeapNotInSync
  match randVal with
  | some r => { zeroMsg with LiVnMode := liVnMode, TransmitTime := r % 2 ^ 64 }
  | none => { zeroMsg with LiVnMode := liVnMode, TransmitTime := toNtpTime xmitTime }

/-- `getTime` (source lines 148-227).  `rawFunc` is the transport; the
world parameters `randVal` (outcome of `rand.Read`), `xmitTime` (the local
send instant, nanoseconds since the NTP epoch) and `delta` (the elapsed
nanoseconds measured by `time.Since(xmitTime)`) make the effects explicit.
The result mirrors Go's `(*msg, ntpTime, error)` triple.

Note on line 189-191 of the source: the error returned by
`rawFunc(rawData.Bytes())` is captured into `err` but immediately
overwritten by the `binary.Read` call before ever being checked, so only
the returned buffer of the transport is consulted; that behaviour is
embedded faithfully here by dropping the second component of `rawFunc`'s
result. -/
def getTime (rawFunc : List Nat → List Nat × Option GoError)
    (opt : QueryOptions) (randVal : Option Nat) (xmitTime : Nat)
    (delta : Int) : Option Msg × Nat × Option GoError :=
  let version := effVersion opt.Version
  if version < 2 ∨ 4 < version then
    (none, 0, some (GoError.msg "invalid protocol version requested"))
  else
    let xmitMsg := requestMsg version.toNat randVal xmitTime
    let recBuf := (rawFunc (encode xmitMsg)).1
    match decode recBuf with
    | .error e => (none, 0, some e)
    | .ok recvMsg =>
      if delta < 0 then
        (none, 0, some (GoError.msg "client clock ticked backwards"))
      else
        let recvTime := toNtpTime (xmitTime + delta.toNat)
        if getMode recvMsg.LiVnMode ≠ server then
          (none, 0, some (GoError.msg "invalid mode in response"))
        else if recvMsg.TransmitTime = 0 then
          (none, 0, some (GoError.msg "invalid transmit time in response"))
        else if recvMsg.OriginTime ≠ xmitMsg.TransmitTime then
          (none, 0, some (GoError.msg "server response mismatch"))
        else if recvMsg.TransmitTime < recvMsg.ReceiveTime then
          (none, 0, some (GoError.msg "server clock ticked backwards"))
        else
          (some { recvMsg with OriginTime := toNtpTime xmitTime }, recvTime, none)

/-- Interpretation of a byte as a signed 8-bit value. -/
def int8val (n : Nat) : Int :=
  if n % 256 < 128 then ((n % 256 : Nat) : Int) else ((n % 256 : Nat) : Int) - 256

/-- Interpretation of a 4-byte field as a signed 32-bit value. -/
def int32val (n : Nat) : Int :=
  if n % 2 ^ 32 < 2 ^ 31 then ((n % 2 ^ 32 : Nat) : Int)
  else ((n % 2 ^ 32 : Nat) : Int) - 2 ^ 32

/-- A 16.16 fixed-point seconds value converted to nanoseconds. -/
def fixed16ToNs (v : Int) : Int := v * (nanoPerSec : Int) / 2 ^ 16

/-- Modelled from the spec: the `Response` record returned to callers.
Time-valued fields are nanoseconds since the NTP epoch; duration-valued
fields are nanoseconds. -/
structure Response where
  Time : Int
  Stratum : Nat
  ReferenceID : Nat
  RootDelay : Int
  RootDispersion : Int
  RootDistance : Int
  Leap : Nat
  Poll : Nat
  Precision : Int
  RoundTripDelay : Int
  ClockOffset : Int
  deriving DecidableEq, Repr

/-- Modelled from the spec: `RoundTripDelay = (t4 - t1) - (t3 - t2)` for
`t1` = (corrected) OriginTime, `t2` = server ReceiveTime, `t3` = server
TransmitTime, `t4` = local receive timestamp. -/
def rtt (t1 t2 t3 t4 : Nat) : Int :=
  (ntpToNs t4 - ntpToNs t1) - (ntpToNs t3 - ntpToNs t2)

/-- Modelled from the spec: `ClockOffset = ((t2 - t1) + (t3 - t4)) / 2`
for the same four timestamps. -/
def offset (t1 t2 t3 t4 : Nat) : Int :=
  ((ntpToNs t2 - ntpToNs t1) + (ntpToNs t3 - ntpToNs t4)) / 2

/-- Modelled from the spec: `parseTime` builds the `Response` record from
the validated (and origin-corrected) reply `m` and the local receive
timestamp `recvTime`, taking Stratum, Leap, Precision, Poll, ReferenceID
and the root delay/dispersion verbatim from the reply and computing
RoundTripDelay, ClockOffset and RootDistance. -/
def parseTime (m : Msg) (recvTime : Nat) : Response :=
  { Time := ntpToNs m.TransmitTime
    Stratum := m.Stratum
    ReferenceID := m.ReferenceID
    RootDelay := fixed16ToNs (int32val m.RootDelay)
    RootDispersion := fixed16ToNs ((m.RootDispersion % 2 ^ 32 : Nat) : Int)
    RootDistance := fixed16ToNs (int32val m.RootDelay) / 2 +
      fixed16ToNs ((m.RootDispersion % 2 ^ 32 : Nat) : Int)
    Leap := getLeap m.LiVnMode
    Poll := m.Poll
    Precision := int8val m.Precision
    RoundTripDelay := rtt m.OriginTime m.ReceiveTime m.TransmitTime recvTime
    ClockOffset := offset m.OriginTime m.ReceiveTime m.TransmitTime recvTime }

/-- Modelled from the spec: the maximum acceptable root distance used by
`Response.Validate` (a configured constant; 16 seconds here). -/
def maxRootDistance : Int := 16 * (nanoPerSec : Int)

/-- Modelled from the spec: `Response.Validate` fails when the server is
itself unsynchronized (Leap = NotInSync), when Stratum is outside the
valid serving range 1..15, or when RootDistance exceeds the maximum
acceptable dispersion; otherwise the response is usable. -/
def Response.Validate (r : Response) : Option GoError :=
  if r.Leap = LeapNotInSync then some (.msg "server is unsynchronized")
  else if r.Stratum = 0 ∨ 15 < r.Stratum then some (.msg "invalid stratum in response")
  else if maxRootDistance < r.RootDistance then some (.msg "root distance is excessive")
  else none

/-- `QueryWithOptions` (source lines 111-117): run `getTime`, return its
error when present, otherwise parse the reply into a `Response`.  The last
match arm is unreachable: `getTime` never pairs a `none` message with a
`none` error (Go would dereference the nil pointer there). -/
def QueryWithOptions (rawFunc : List Nat → List Nat × Option GoError)
    (opt : QueryOptions) (randVal : Option Nat) (xmitTime : Nat)
    (delta : Int) : Option Response × Option GoError :=
  match getTime rawFunc opt randVal xmitTime delta with
  | (_, _, some e) => (none, some e)
  | (some m, now, none) => (some (parseTime m now), none)
  | (none, _, none) => (none, none)

/-- `Query` (source lines 105-107): `QueryWithOptions` with defaults. -/
def Query (rawFunc : List Nat → List Nat × Option GoError)
    (randVal : Option Nat) (xmitTime : Nat) (delta : Int) :
    Option Response × Option GoError :=
  QueryWithOptions rawFunc {} randVal xmitTime delta

/-- `TimeV` (source lines 123-137).  `now` is the value of the
`time.Now()` read performed at the returning statement (nanoseconds since
the NTP epoch, as an `Int`): on a query error or a validation error the
local system time is returned together with the error, otherwise local
now adjusted by the computed clock offset. -/
def TimeV (rawFunc : List Nat → List Nat × Option GoError)
    (version : Int) (randVal : Option Nat) (xmitTime : Nat) (delta : Int)
    (now : Int) : Int × Option GoError :=
  match getTime rawFunc { Version := version } randVal xmitTime delta with
  | (_, _, some e) => (now, some e)
  | (some m, recvTime, none) =>
    let r := parseTime m recvTime
    match r.Validate with
    | some e => (now, some e)
    | none => (now + r.ClockOffset, none)
  | (none, _, none) => (now, none)

/-- `Time` (source lines 142-144): `TimeV` at the default version. -/
def Time (rawFunc : List Nat → List Nat × Option GoError)
    (randVal : Option Nat) (xmitTime : Nat) (delta : Int) (now : Int) :
    Int × Option GoError :=
  TimeV rawFunc defaultNtpVersion randVal xmitTime delta now

/-- The transport closure returned by `MakeDefaultHandler` (source lines
40-88), with every socket effect passed explicitly: the error outcomes of
the remote/local address resolution, the dial, the TTL setting and the
write, and the bytes delivered by the single read together with its error.
`con.Read` fills a zero-initialized buffer of the request's length with
the delivered datagram prefix; its byte count is ignored, so on success
the whole buffer — zero tail included — is returned. -/
def defaultHandler (localAddress : String) (ttl : Int)
    (resolveRemoteErr resolveLocalErr dialErr ttlErr writeErr : Option GoError)
    (readBytes : List Nat) (readErr : Option GoError)
    (data : List Nat) : List Nat × Option GoError :=
  match resolveRemoteErr with
  | some e => ([], some e)
  | none =>
    match (if localAddress = "" then none else resolveLocalErr) with
    | some e => ([], some e)
    | none =>
      match dialErr with
      | some e => ([], some e)
      | none =>
        match (if ttl = 0 then none else ttlErr) with
        | some e => ([], some e)
        | none =>
          match writeErr with
          | some e => ([], some e)
          | none =>
            match readErr with
            | some e => ([], some e)
            | none =>
              let fill := readBytes.take data.length
              (fill ++ List.replicate (data.length - fill.length) 0, none)

deriving instance DecidableEq for Except

/-- A well-formed server reply used as a concrete exchange in several
witnesses: Mode=Server, Version=4, Leap=NoWarning, OriginTime echoing the
random request TransmitTime 5, ReceiveTime 6 not after TransmitTime 7. -/
def replyOk : Msg :=
  { LiVnMode := 0x24
    Stratum := 2
    Poll := 6
    Precision := 232
    RootDelay := 256
    RootDispersion := 256
    ReferenceID := 1234
    ReferenceTime := 11
    OriginTime := 5
    ReceiveTime := 6
    TransmitTime := 7 }

/-- The reply used by the spec's offset/delay example: t1 = OriginTime = 0,
t2 = ReceiveTime = 1.0 s, t3 = TransmitTime = 1.0 s in NTP units. -/
def exReply : Msg := { zeroMsg with ReceiveTime := 2 ^ 32, TransmitTime := 2 ^ 32 }

/-- Claim C1: the claim states that every transport error is propagated
verbatim by `getTime`.  The code violates this: the error returned by
`rawFunc` (source line 189) is overwritten by the `binary.Read` result
(line 191) before ever being checked.  With a transport failing with a nil
buffer, `getTime` returns `binary.Read`'s EOF error instead of the
transport error; with a transport returning an error together with a full
48-byte buffer, the error is swallowed entirely and the query succeeds. -/
theorem getTime_drops_transport_error :
    getTime (fun _ => ([], some (GoError.msg "network unreachable"))) ⟨4⟩ (some 5) 0 0
      = (none, 0, some GoError.eof)
    ∧ GoError.eof ≠ GoError.msg "network unreachable"
    ∧ (getTime (fun _ => (encode replyOk, some (GoError.msg "network unreachable")))
        ⟨4⟩ (some 5) 0 0).2.2 = none := by
  refine ⟨?_, ?_, ?_⟩ <;> decide

/-- Claim C3: `getTime` treats Version 0 as the default version 4, and for
a Version outside {2,3,4} (and not 0) it fails with the invalid-version
error for every transport, so no transport call can influence (or be
observed on) that path. -/
theorem getTime_version_handling
    (rawFunc : List Nat → List Nat × Option GoError) (opt : QueryOptions)
    (randVal : Option Nat) (xmitTime : Nat) (delta : Int) :
    (opt.Version = 0 →
      getTime rawFunc opt randVal xmitTime delta =
        getTime rawFunc ⟨4⟩ randVal xmitTime delta)
    ∧ (opt.Version ≠ 0 → (opt.Version < 2 ∨ 4 < opt.Version) →
      ∀ rawFunc2 : List Nat → List Nat × Option GoError,
        getTime rawFunc2 opt randVal xmitTime delta =
          (none, 0, some (GoError.msg "invalid protocol version requested"))) := by
  constructor
  · intro h0
    simp only [getTime, effVersion, h0, defaultNtpVersion]
    norm_num
  · intro hne hout rawFunc2
    have heff : effVersion opt.Version = opt.Version := if_neg hne
    simp only [getTime, heff]
    rw [if_pos hout]

/-- Claim C3 witness: Version 5 fails with the invalid-version error, and
Version 0 behaves exactly as Version 4, at concrete inputs. -/
theorem getTime_version_handling_witness :
    getTime (fun _ => ([], none)) ⟨5⟩ none 0 0 =
      (none, 0, some (GoError.msg "invalid protocol version requested"))
    ∧ getTime (fun _ => ([], none)) ⟨0⟩ none 0 0 =
      getTime (fun _ => ([], none)) ⟨4⟩ none 0 0 := by
  constructor
  · exact (getTime_version_handling (fun _ => ([], none)) ⟨5⟩ none 0 0).2
      (by decide) (by decide) _
  · exact (getTime_version_handling (fun _ => ([], none)) ⟨0⟩ none 0 0).1 rfl

/-- Claim C8 (as amended): the Response computed by `parseTime` satisfies
`RoundTripDelay = (t4 - t1) - (t3 - t2)` and
`ClockOffset = ((t2 - t1) + (t3 - t4)) / 2`; at the spec's example input
t1 = 0, t2 = 1.0 s, t3 = 1.0 s, t4 = 2.0 s the delay is exactly 2.0 s (not
1.0 s as the claim states) and the offset exactly 0.0 s. -/
theorem parseTime_delay_offset_formulas :
    (∀ (m : Msg) (t4 : Nat),
        (parseTime m t4).RoundTripDelay =
          (ntpToNs t4 - ntpToNs m.OriginTime) -
            (ntpToNs m.TransmitTime - ntpToNs m.ReceiveTime)
        ∧ (parseTime m t4).ClockOffset =
          ((ntpToNs m.ReceiveTime - ntpToNs m.OriginTime) +
            (ntpToNs m.TransmitTime - ntpToNs t4)) / 2)
    ∧ (parseTime exReply (2 * 2 ^ 32)).RoundTripDelay = 2 * 1000000000
    ∧ (parseTime exReply (2 * 2 ^ 32)).ClockOffset = 0 := by
  refine ⟨fun m t4 => ⟨rfl, rfl⟩, by decide, by decide⟩

/-- Claim C8 counterexample: at the spec's own example input t1 = 0,
t2 = 1.0 s, t3 = 1.0 s, t4 = 2.0 s, the computed RoundTripDelay is not
1.0 s (it is 2.0 s by the spec's own formula). -/
theorem parseTime_example_delay_not_one :
    ¬ (parseTime exReply (2 * 2 ^ 32)).RoundTripDelay = 1000000000 := by decide

/-- Claim C10: on the all-success path the default handler returns a
buffer of exactly the request's length together with no error, for every
delivered datagram — in particular also when the read delivered fewer
bytes than requested, since the byte count of the read is ignored and the
tail of the zero-initialized buffer stays zero-filled. -/
theorem defaultHandler_preserves_length
    (localAddress : String) (ttl : Int) (readBytes data : List Nat) :
    (defaultHandler localAddress ttl none none none none none readBytes none data).2 = none
    ∧ (defaultHandler localAddress ttl none none none none none readBytes none data).1.length
        = data.length
    ∧ (defaultHandler localAddress ttl none none none none none readBytes none data).1
        = readBytes.take data.length ++
          List.replicate (data.length - (readBytes.take data.length).length) 0 := by
  refine ⟨?_, ?_, ?_⟩
  · simp only [defaultHandler, ite_self]
  · simp only [defaultHandler, ite_self, List.length_append, List.length_take,
      List.length_replicate]
    omega
  · simp only [defaultHandler, ite_self]

/-- Claim C2: given a decodable reply, `getTime` succeeds exactly when the
four protocol checks hold, and each first failing check yields its
dedicated error: Mode must be Server, TransmitTime must be non-zero,
OriginTime must echo the TransmitTime placed in the request packet, and
ReceiveTime must not exceed TransmitTime. -/
theorem getTime_reply_validation
    (rawFunc : List Nat → List Nat × Option GoError) (opt : QueryOptions)
    (randVal : Option Nat) (xmitTime : Nat) (delta : Int) (reply : Msg)
    (h2 : 2 ≤ effVersion opt.Version) (h4 : effVersion opt.Version ≤ 4)
    (hdec : decode (rawFunc (encode (requestMsg (effVersion opt.Version).toNat
      randVal xmitTime))).1 = Except.ok reply)
    (hdelta : 0 ≤ delta) :
    ((getTime rawFunc opt randVal xmitTime delta).2.2 = none ↔
      (getMode reply.LiVnMode = server ∧ reply.TransmitTime ≠ 0 ∧
        reply.OriginTime =
          (requestMsg (effVersion opt.Version).toNat randVal xmitTime).TransmitTime ∧
        reply.ReceiveTime ≤ reply.TransmitTime))
    ∧ (getMode reply.LiVnMode ≠ server →
        (getTime rawFunc opt randVal xmitTime delta).2.2 =
          some (GoError.msg "invalid mode in response"))
    ∧ (getMode reply.LiVnMode = server → reply.TransmitTime = 0 →
        (getTime rawFunc opt randVal xmitTime delta).2.2 =
          some (GoError.msg "invalid transmit time in response"))
    ∧ (getMode reply.LiVnMode = server → reply.TransmitTime ≠ 0 →
        reply.OriginTime ≠
          (requestMsg (effVersion opt.Version).toNat randVal xmitTime).TransmitTime →
        (getTime rawFunc opt randVal xmitTime delta).2.2 =
          some (GoError.msg "server response mismatch"))
    ∧ (getMode reply.LiVnMode = server → reply.TransmitTime ≠ 0 →
        reply.OriginTime =
          (requestMsg (effVersion opt.Version).toNat randVal xmitTime).TransmitTime →
        reply.TransmitTime < reply.ReceiveTime →
        (getTime rawFunc opt randVal xmitTime delta).2.2 =
          some (GoError.msg "server clock ticked backwards")) := by
  have hcond : ¬ (effVersion opt.Version < 2 ∨ 4 < effVersion opt.Version) := by omega
  have hd : ¬ delta < 0 := by omega
  simp only [getTime]
  rw [if_neg hcond, hdec]
  simp only [if_neg hd]
  split_ifs with hmode hxmit horig hrecv <;> simp_all

/-- Claim C2 witness: a reply passing all four checks makes the concrete
query succeed. -/
theorem getTime_reply_validation_witness :
    (getTime (fun _ => (encode replyOk, none)) ⟨4⟩ (some 5) 0 0).2.2 = none := by
  exact (getTime_reply_validation (fun _ => (encode replyOk, none)) ⟨4⟩ (some 5) 0 0
    replyOk (by decide) (by decide) (by decide) (by decide)).1.mpr (by decide)

/-- Claim C4: with a decodable reply, a negative local delta makes
`getTime` fail with the client clock error, and on success the returned
local receive NTP timestamp is `toNtpTime` of the send instant advanced by
the measured delta. -/
theorem getTime_delta_handling
    (rawFunc : List Nat → List Nat × Option GoError) (opt : QueryOptions)
    (randVal : Option Nat) (xmitTime : Nat) (delta : Int) (reply : Msg)
    (h2 : 2 ≤ effVersion opt.Version) (h4 : effVersion opt.Version ≤ 4)
    (hdec : decode (rawFunc (encode (requestMsg (effVersion opt.Version).toNat
      randVal xmitTime))).1 = Except.ok reply) :
    (delta < 0 → getTime rawFunc opt randVal xmitTime delta =
      (none, 0, some (GoError.msg "client clock ticked backwards")))
    ∧ (∀ (m : Msg) (t : Nat),
        getTime rawFunc opt randVal xmitTime delta = (some m, t, none) →
        t = toNtpTime (xmitTime + delta.toNat)) := by
  have hcond : ¬ (effVersion opt.Version < 2 ∨ 4 < effVersion opt.Version) := by omega
  constructor
  · intro hneg
    simp only [getTime]
    rw [if_neg hcond, hdec]
    simp only [if_pos hneg]
  · intro m t hres
    simp only [getTime] at hres
    rw [if_neg hcond, hdec] at hres
    dsimp only [] at hres
    split_ifs at hres <;> simp_all

/-- Claim C4 witness: a concrete exchange with delta = -1 fails with the
client clock error. -/
theorem getTime_delta_handling_witness :
    getTime (fun _ => (encode replyOk, none)) ⟨4⟩ (some 5) 0 (-1) =
      (none, 0, some (GoError.msg "client clock ticked backwards")) := by
  exact (getTime_delta_handling (fun _ => (encode replyOk, none)) ⟨4⟩ (some 5) 0 (-1)
    replyOk (by decide) (by decide) (by decide)).1 (by decide)

/-- Claim C5: on a successful query the returned message is the decoded
reply with only its OriginTime overwritten by `toNtpTime` of the true
local send instant; every other field is passed through verbatim. -/
theorem getTime_origin_overwrite
    (rawFunc : List Nat → List Nat × Option GoError) (opt : QueryOptions)
    (randVal : Option Nat) (xmitTime : Nat) (delta : Int) (reply m : Msg) (t : Nat)
    (hdec : decode (rawFunc (encode (requestMsg (effVersion opt.Version).toNat
      randVal xmitTime))).1 = Except.ok reply)
    (hres : getTime rawFunc opt randVal xmitTime delta = (some m, t, none)) :
    m = { reply with OriginTime := toNtpTime xmitTime } := by
  simp only [getTime] at hres
  split at hres
  · simp_all
  · rw [hdec] at hres
    dsimp only [] at hres
    split_ifs at hres <;> simp_all

/-- Claim C5 witness: the concrete successful exchange returns the reply
with its OriginTime replaced by the send instant's NTP timestamp. -/
theorem getTime_origin_overwrite_witness :
    ({ replyOk with OriginTime := 0 } : Msg) =
      { replyOk with OriginTime := toNtpTime 0 } := by
  exact getTime_origin_overwrite (fun _ => (encode replyOk, none)) ⟨4⟩ (some 5) 0 0
    replyOk { replyOk with OriginTime := 0 } 0 (by decide) (by decide)

/-- Claim C6: when the secure random source succeeds, the request packet's
TransmitTime is the random 64-bit value; when it fails, it is `toNtpTime`
of the local clock at send time; and `getTime` consults the transport only
on the encoded request packet, so the value placed on the wire is exactly
the one `requestMsg` computes (the local send instant `xmitTime` being a
separate parameter throughout). -/
theorem getTime_transmit_time_source (v : Nat) (r xmitTime : Nat) :
    (requestMsg v (some r) xmitTime).TransmitTime = r % 2 ^ 64
    ∧ (requestMsg v none xmitTime).TransmitTime = toNtpTime xmitTime
    ∧ ∀ (rawFunc1 rawFunc2 : List Nat → List Nat × Option GoError)
        (opt : QueryOptions) (randVal : Option Nat) (delta : Int),
        rawFunc1 (encode (requestMsg (effVersion opt.Version).toNat randVal xmitTime)) =
          rawFunc2 (encode (requestMsg (effVersion opt.Version).toNat randVal xmitTime)) →
        getTime rawFunc1 opt randVal xmitTime delta =
          getTime rawFunc2 opt randVal xmitTime delta := by
  refine ⟨rfl, rfl, ?_⟩
  intro rawFunc1 rawFunc2 opt randVal delta h
  simp only [getTime]
  rw [h]

/-- A transport variant agreeing with `fun bs => (encode replyOk, none)` on
every non-empty request but not on the empty buffer. -/
def rawAlt : List Nat → List Nat × Option GoError :=
  fun bs => if bs = [] then ([], some GoError.eof) else (encode replyOk, none)

/-- Claim C6 witness: at concrete inputs, the on-wire TransmitTime equals
the random value, equals `toNtpTime` of the send instant on the fallback
path, and two transports agreeing on the request bytes give identical
query outcomes. -/
theorem getTime_transmit_time_source_witness :
    (requestMsg 4 (some 5) 123).TransmitTime = 5 % 2 ^ 64
    ∧ (requestMsg 4 none 123).TransmitTime = toNtpTime 123
    ∧ getTime (fun _ => (encode replyOk, none)) ⟨4⟩ (some 5) 123 0 =
        getTime rawAlt ⟨4⟩ (some 5) 123 0 := by
  obtain ⟨a, b, c⟩ := getTime_transmit_time_source 4 5 123
  exact ⟨a, b, c (fun _ => (encode replyOk, none)) rawAlt ⟨4⟩ (some 5) 0 (by decide)⟩

/-- Claim C7: `TimeV` returns the local system time with the error on any
query failure and on any validation failure of the parsed response, and
only on full success returns local now adjusted by the computed clock
offset. -/
theorem TimeV_fallback
    (rawFunc : List Nat → List Nat × Option GoError) (version : Int)
    (randVal : Option Nat) (xmitTime : Nat) (delta : Int) (now : Int) :
    (∀ e, (getTime rawFunc { Version := version } randVal xmitTime delta).2.2 = some e →
        TimeV rawFunc version randVal xmitTime delta now = (now, some e))
    ∧ (∀ (m : Msg) (t : Nat),
        getTime rawFunc { Version := version } randVal xmitTime delta = (some m, t, none) →
        ((parseTime m t).Validate = none →
          TimeV rawFunc version randVal xmitTime delta now =
            (now + (parseTime m t).ClockOffset, none))
        ∧ ∀ e, (parseTime m t).Validate = some e →
          TimeV rawFunc version randVal xmitTime delta now = (now, some e)) := by
  constructor
  · intro e he
    simp only [TimeV]
    split <;> simp_all
  · intro m t hres
    simp only [TimeV]
    split <;> simp_all

/-- Claim C7 witness: a concrete fully successful query makes `TimeV`
return local now shifted by the computed offset with no error. -/
theorem TimeV_fallback_witness :
    TimeV (fun _ => (encode replyOk, none)) 4 (some 5) 0 0 100 =
      (100 + (parseTime ({ replyOk with OriginTime := 0 } : Msg) 0).ClockOffset, none) := by
  exact ((TimeV_fallback (fun _ => (encode replyOk, none)) 4 (some 5) 0 0 100).2
    { replyOk with OriginTime := 0 } 0 (by decide)).1 (by decide)

/-- Claim C9: every error path of `getTime` carries a `none` message and a
zero receive timestamp, and `QueryWithOptions` returns a `none` Response
whenever it returns an error. -/
theorem getTime_error_returns_nil
    (rawFunc : List Nat → List Nat × Option GoError) (opt : QueryOptions)
    (randVal : Option Nat) (xmitTime : Nat) (delta : Int) :
    ((getTime rawFunc opt randVal xmitTime delta).2.2 ≠ none →
      (getTime rawFunc opt randVal xmitTime delta).1 = none ∧
      (getTime rawFunc opt randVal xmitTime delta).2.1 = 0)
    ∧ ((QueryWithOptions rawFunc opt randVal xmitTime delta).2 ≠ none →
      (QueryWithOptions rawFunc opt randVal xmitTime delta).1 = none) := by
  constructor
  · simp only [getTime]
    repeat' split
    all_goals simp
  · simp only [QueryWithOptions]
    split <;> simp

/-- Claim C9 witness: a failing concrete query (invalid version) returns a
`none` message and a zero timestamp. -/
theorem getTime_error_returns_nil_witness :
    (getTime (fun _ => ([], none)) ⟨5⟩ none 0 0).1 = none ∧
    (getTime (fun _ => ([], none)) ⟨5⟩ none 0 0).2.1 = 0 := by
  exact (getTime_error_returns_nil (fun _ => ([], none)) ⟨5⟩ none 0 0).1 (by decide)

end Ntp
